import Mathlib

/-!
# Verification of the trim_image / CSV timing-and-count reconciliation checker

Shallow embedding of `src/main.py` (the directory/CSV reconciliation checker).

Modelling conventions:
* Python `datetime` objects are embedded as a `PyDateTime` structure of numeric
  fields; comparison and subtraction go through `PyDateTime.toMicros`, the
  proleptic-Gregorian timeline in microseconds (exactly the granularity of
  `datetime`; `timedelta.total_seconds()` comparisons against integer second
  thresholds are reproduced exactly as integer microsecond comparisons, which
  agrees with the float computation at every reachable input because the float
  quotient is within 1e-9 of the exact rational while microsecond granularity
  is 1e-6).
* File-system access is treated as a capability (as the specification itself
  scopes it): a CSV file is represented by the observable outcome of iterating
  its rows under each of the two encodings the program uses (`utf-8` and
  `shift_jis`).  Iterating a text file lazily yields the rows decoded before a
  possible `UnicodeDecodeError`; `ReadOutcome.rows` are the yielded rows (the
  header row included) and `ReadOutcome.err` tells whether iteration ended
  normally or with a decode error.
* Python exceptions are modelled with `Except PyExc`; an uncaught exception
  aborts the run (`runCheck` returns `.error`), and no summary is produced.
* Console text is not modelled, except that warning strings are represented by
  the structured `Warning` values they interpolate (filename, set number and
  exact microsecond difference), which determine the printed strings.
* Print-only statistics (average/min/max time differences, match-rate
  percentages) have no observable effect and are omitted.
-/

deriving instance DecidableEq for Except

/-! ## Calendar arithmetic (mirrors `datetime`'s proleptic Gregorian calendar) -/

def isLeapYear (y : Nat) : Bool :=
  y % 4 == 0 && (y % 100 != 0 || y % 400 == 0)

def daysInMonth (y m : Nat) : Nat :=
  if m == 2 then (if isLeapYear y then 29 else 28)
  else if m == 4 || m == 6 || m == 9 || m == 11 then 30
  else 31

/-- Days in all years before year `y` (proleptic Gregorian, year 1 is first). -/
def daysBeforeYear (y : Nat) : Nat :=
  (y - 1) * 365 + (y - 1) / 4 - (y - 1) / 100 + (y - 1) / 400

/-- Days in the months of year `y` strictly before month `m`. -/
def daysBeforeMonth (y m : Nat) : Nat :=
  ((List.range (m - 1)).map (fun k => daysInMonth y (k + 1))).sum

/-- Embedding of a Python `datetime.datetime` value (naive, no tzinfo). -/
structure PyDateTime where
  year : Nat
  month : Nat
  day : Nat
  hour : Nat
  minute : Nat
  second : Nat
  microsecond : Nat
deriving DecidableEq, Repr

/-- Position of the instant on the microsecond timeline.  `datetime`
comparison and subtraction on the values produced by the program coincide with
`Int` comparison and subtraction of `toMicros`. -/
def PyDateTime.toMicros (t : PyDateTime) : Int :=
  (((daysBeforeYear t.year + daysBeforeMonth t.year t.month + (t.day - 1)) * 86400
      + t.hour * 3600 + t.minute * 60 + t.second) * 1000000 + t.microsecond : Nat)

/-! ## Character/string utilities (kernel-computable replacements for the
string primitives the Python code uses) -/

def digitVal (c : Char) : Nat := c.toNat - 48

def digitsVal (cs : List Char) : Nat :=
  cs.foldl (fun acc c => acc * 10 + digitVal c) 0

/-- The whitespace characters stripped by Python's `str.strip()` (the ASCII
subset, which covers every input this development evaluates). -/
def isPySpace (c : Char) : Bool :=
  c == ' ' || c == '\t' || c == '\n' || c == '\r' || c == '\x0b' || c == '\x0c'

/-- Python `str.strip()` on a character list. -/
def pyStrip (cs : List Char) : List Char :=
  ((cs.dropWhile isPySpace).reverse.dropWhile isPySpace).reverse

/-- Python `s.endswith(".npy")`. -/
def endsWithNpy (s : String) : Bool :=
  s.toList.reverse.take 4 == ['y', 'p', 'n', '.']

/-! ## `parse_csv_time` (src/main.py lines 32-50)

`datetime.strptime` with format `"%Y/%m/%d %H:%M"` and, on failure,
`"%Y/%m/%d %H:%M:%S"`.  CPython's `_strptime` compiles the directives to the
regular expressions `%Y ↦ \d{4}`, `%m ↦ 1[0-2]|0[1-9]|[1-9]`,
`%d ↦ 3[01]|[12]\d|0[1-9]|[1-9]`, `%H ↦ 2[0-3]|[0-1]\d|\d`,
`%M ↦ [0-5]\d|\d`, `%S ↦ 6[0-1]|[0-5]\d|\d`, turns literal whitespace into
`\s+`, and requires the whole string to match; `datetime` construction then
additionally validates the day against the month length and rejects seconds
60/61.  Because every two-character alternative consumes two digits while the
separators `/`, `:`, whitespace and end-of-string are never digits, the
ordered alternation never needs cross-token backtracking, so each field can be
parsed greedily: take two digits when they form an admissible two-digit value,
else one digit when admissible. -/

/-- Parse one numeric field: two digits if admissible as a two-digit match,
else one digit if admissible.  Returns the value and the remaining input. -/
def parseField (ok2 : Nat → Bool) (ok1 : Nat → Bool) :
    List Char → Option (Nat × List Char)
  | c1 :: c2 :: rest =>
      if c1.isDigit && c2.isDigit && ok2 (digitVal c1 * 10 + digitVal c2) then
        some (digitVal c1 * 10 + digitVal c2, rest)
      else if c1.isDigit && ok1 (digitVal c1) then
        some (digitVal c1, c2 :: rest)
      else none
  | [c1] =>
      if c1.isDigit && ok1 (digitVal c1) then some (digitVal c1, []) else none
  | [] => none

/-- Parse exactly four digits (`%Y`). -/
def parseYear4 : List Char → Option (Nat × List Char)
  | a :: b :: c :: d :: rest =>
      if a.isDigit && b.isDigit && c.isDigit && d.isDigit then
        some (digitsVal [a, b, c, d], rest)
      else none
  | _ => none

def expectChar (ch : Char) : List Char → Option (List Char)
  | c :: rest => if c == ch then some rest else none
  | [] => none

/-- Literal whitespace in a strptime format matches one or more whitespace
characters. -/
def expectSpaces : List Char → Option (List Char)
  | c :: rest => if isPySpace c then some (rest.dropWhile isPySpace) else none
  | [] => none

def monthField := parseField (fun v => 1 ≤ v && v ≤ 12) (fun v => 1 ≤ v && v ≤ 9)
def dayField := parseField (fun v => 1 ≤ v && v ≤ 31) (fun v => 1 ≤ v && v ≤ 9)
def hourField := parseField (fun v => v ≤ 23) (fun _ => true)
def minuteField := parseField (fun v => v ≤ 59) (fun _ => true)
def secondField := parseField (fun v => v ≤ 61) (fun _ => true)

/-- `datetime(y, m, d, h, mi, s)` construction succeeds (strptime matching has
already bounded `m ≤ 12`, `d ≤ 31`, `h ≤ 23`, `mi ≤ 59`, `s ≤ 61`). -/
def datetimeCtorOk (y m d s : Nat) : Bool :=
  1 ≤ y && y ≤ 9999 && 1 ≤ d && d ≤ daysInMonth y m && s ≤ 59

/-- `strptime(cs, "%Y/%m/%d %H:%M")`, the whole input consumed. -/
def strptimeYmdHM (cs : List Char) : Option PyDateTime := do
  let (y, cs) ← parseYear4 cs
  let cs ← expectChar '/' cs
  let (m, cs) ← monthField cs
  let cs ← expectChar '/' cs
  let (d, cs) ← dayField cs
  let cs ← expectSpaces cs
  let (h, cs) ← hourField cs
  let cs ← expectChar ':' cs
  let (mi, cs) ← minuteField cs
  match cs with
  | [] => if datetimeCtorOk y m d 0 then some ⟨y, m, d, h, mi, 0, 0⟩ else none
  | _ => none

/-- `strptime(cs, "%Y/%m/%d %H:%M:%S")`, the whole input consumed. -/
def strptimeYmdHMS (cs : List Char) : Option PyDateTime := do
  let (y, cs) ← parseYear4 cs
  let cs ← expectChar '/' cs
  let (m, cs) ← monthField cs
  let cs ← expectChar '/' cs
  let (d, cs) ← dayField cs
  let cs ← expectSpaces cs
  let (h, cs) ← hourField cs
  let cs ← expectChar ':' cs
  let (mi, cs) ← minuteField cs
  let cs ← expectChar ':' cs
  let (s, cs) ← secondField cs
  match cs with
  | [] => if datetimeCtorOk y m d s then some ⟨y, m, d, h, mi, s, 0⟩ else none
  | _ => none

/-- `parse_csv_time` (src/main.py lines 32-50): strip, try minute-precision
format, fall back to second-precision format, else `None`. -/
def parse_csv_time (s : String) : Option PyDateTime :=
  let cs := pyStrip s.toList
  match strptimeYmdHM cs with
  | some t => some t
  | none => strptimeYmdHMS cs

/-! ## `parse_trim_image_time` (src/main.py lines 8-30) -/

inductive PyExc where
  | valueError
  | stopIteration
  | unboundLocalError
deriving DecidableEq, Repr

/-- `re.match(r'(\d{8})-(\d{6})-(\d+)\.npy', filename)`: anchored at the start
only (trailing characters after `.npy` are allowed), returning the three
captured groups.  The greedy `\d+` needs no backtracking because `.` is not a
digit. -/
def matchTrimPattern (s : String) : Option (List Char × List Char × List Char) :=
  match s.toList with
  | a₁ :: a₂ :: a₃ :: a₄ :: a₅ :: a₆ :: a₇ :: a₈ :: rest =>
      let g1 := [a₁, a₂, a₃, a₄, a₅, a₆, a₇, a₈]
      if g1.all Char.isDigit then
        match rest with
        | '-' :: b₁ :: b₂ :: b₃ :: b₄ :: b₅ :: b₆ :: rest₂ =>
            let g2 := [b₁, b₂, b₃, b₄, b₅, b₆]
            if g2.all Char.isDigit then
              match rest₂ with
              | '-' :: rest₃ =>
                  let g3 := rest₃.takeWhile Char.isDigit
                  let tail := rest₃.dropWhile Char.isDigit
                  if g3.length == 0 then none
                  else if tail.take 4 == ['.', 'n', 'p', 'y'] then
                    some (g1, g2, g3)
                  else none
              | _ => none
            else none
        | _ => none
      else none
  | _ => none

/-- `parse_trim_image_time` (src/main.py lines 8-30).  On a regex match the
code re-parses the date and time through
`strptime("%Y-%m-%d %H:%M:%S")` — whose fields are exact-width digit slices of
the groups, so validation reduces to `datetimeCtorOk` plus the two-digit field
bounds — and then calls `replace(microsecond=milliseconds * 1000)`, which
raises `ValueError` whenever `milliseconds * 1000 > 999999`.  A failed match
returns `None`; a validation failure propagates as an uncaught exception. -/
def trimComponentsOk (y mo da h mi sec : Nat) : Bool :=
  1 ≤ mo && mo ≤ 12 && 1 ≤ da && da ≤ 31 && h ≤ 23 && mi ≤ 59 && sec ≤ 59
    && datetimeCtorOk y mo da sec

def parse_trim_image_time (filename : String) :
    Except PyExc (Option (PyDateTime × Nat)) :=
  match matchTrimPattern filename with
  | none => .ok none
  | some (g1, g2, g3) =>
      let y := digitsVal (g1.take 4)
      let mo := digitsVal ((g1.drop 4).take 2)
      let da := digitsVal (g1.drop 6)
      let h := digitsVal (g2.take 2)
      let mi := digitsVal ((g2.drop 2).take 2)
      let sec := digitsVal (g2.drop 4)
      let ms := digitsVal g3
      if trimComponentsOk y mo da h mi sec then
        if ms * 1000 ≤ 999999 then
          .ok (some (⟨y, mo, da, h, mi, sec, ms * 1000⟩, ms))
        else .error .valueError
      else .error .valueError

/-! ## CSV files as read capabilities

The specification scopes file-system access as a capability (list directory,
read file), so a CSV file is embedded as the observable outcome of iterating
its rows under each encoding the program opens it with.  Lazy text iteration
yields the rows that decode before a possible `UnicodeDecodeError`:
`ReadOutcome.rows` are the yielded rows (header included) and `err` tells how
iteration ends.  An empty file iterates to no rows and ends normally. -/

inductive ReadErr where
  | ok
  | decodeErr
deriving DecidableEq, Repr

structure ReadOutcome where
  rows : List (List String)
  err : ReadErr
deriving DecidableEq, Repr

structure CsvFile where
  utf8 : ReadOutcome
  sjis : ReadOutcome
deriving DecidableEq, Repr

/-- The per-row body of the reading loop (src/main.py lines 170-174 and
180-184): keep the row when it is non-empty, its first column is non-blank
and `parse_csv_time` succeeds on it. -/
def parseRowTime (row : List String) : Option PyDateTime :=
  match row with
  | [] => none
  | c0 :: _ =>
      if (pyStrip c0.toList).isEmpty then none else parse_csv_time c0

/-- Timestamps collected from the data rows, in file order. -/
def parseRows (dataRows : List (List String)) : List PyDateTime :=
  dataRows.filterMap parseRowTime

/-- The `except UnicodeDecodeError` fallback (src/main.py lines 175-187):
re-open with `shift_jis`, skip the header with `next(reader)` and append to
the *same* `csv_times` list (`carried`); any exception here — including the
`StopIteration` of the header skip and a second decode error — is caught by
the bare `except Exception`, the date is skipped (`None`) and the loop
continues. -/
def sjisRetry (f : CsvFile) (carried : List PyDateTime) :
    Except PyExc (Option (List PyDateTime)) :=
  match f.sjis.rows, f.sjis.err with
  | _ :: dataRows, .ok => .ok (some (carried ++ parseRows dataRows))
  | _, _ => .ok none

/-- The CSV reading block (src/main.py lines 162-187).  `next(reader)` on an
empty file raises `StopIteration`, which no handler catches — the run aborts.
A decode error after the header is caught, with the rows yielded so far
already appended to `csv_times`. -/
def readCsvTimes (f : CsvFile) : Except PyExc (Option (List PyDateTime)) :=
  match f.utf8.rows, f.utf8.err with
  | [], .ok => .error .stopIteration
  | [], .decodeErr => sjisRetry f []
  | _ :: dataRows, .ok => .ok (some (parseRows dataRows))
  | _ :: dataRows, .decodeErr => sjisRetry f (parseRows dataRows)

/-- The per-set raw-row comparison (src/main.py lines 243-257): re-open the
file with `utf-8` only, skip the header, list all raw data rows and compare
the rows at positions `i-1` and `i`; on any exception (decode error, empty
file) the flag silently stays `False`. -/
def csvRowMatchCheck (f : CsvFile) (i : Nat) : Bool :=
  match f.utf8.rows, f.utf8.err with
  | _ :: dataRows, .ok =>
      if i < dataRows.length then dataRows.getD (i - 1) [] == dataRows.getD i []
      else false
  | _, _ => false

/-! ## Warnings and per-date analysis (src/main.py lines 207-328) -/

/-- A warning string, represented by the data interpolated into it:
`timeDiff` is the 時刻差警告 of line 230 (named file, exact microsecond
difference), `trimInterval` the trim_image間隔警告 of line 261 and
`csvMatch` the CSV行一致警告 of line 264. -/
inductive Warning where
  | timeDiff (trim_file : String) (diffMicros : Nat)
  | trimInterval (set_number : Nat) (diffMicros : Nat)
  | csvMatch (set_number : Nat)
deriving DecidableEq, Repr

/-- The keyword parameters of `check_trim_image_csv_timing`; thresholds in
seconds. -/
structure Config where
  time_diff_threshold : Int
  trim_interval_threshold : Int
  csv_match_required : Bool
deriving DecidableEq, Repr

def cfgDefault : Config := ⟨300, 1, true⟩

/-- One element of `trim_times`: `(filename, parsed time, milliseconds)`. -/
abbrev TrimEntry := String × PyDateTime × Nat

def dt0 : PyDateTime := ⟨1, 1, 1, 0, 0, 0, 0⟩

/-- Stable insertion: `a` goes before the first element it compares
less-or-equal to.  Any stable ascending sort computes the same list as
Python's stable `list.sort`, so this is a faithful model of it. -/
def insertSorted (le : α → α → Bool) (a : α) : List α → List α
  | [] => [a]
  | b :: l => if le a b then a :: b :: l else b :: insertSorted le a l

def stableSort (le : α → α → Bool) : List α → List α
  | [] => []
  | a :: l => insertSorted le a (stableSort le l)

/-- Ascending comparison through an integer key. -/
def leKey (key : α → Int) (a b : α) : Bool := decide (key a ≤ key b)

/-- The sort key of `trim_times.sort(key=lambda x: x[1])` (line 198): the
datetime component. -/
def trimKey (e : TrimEntry) : Int := e.2.1.toMicros

def sortTrimTimes : List TrimEntry → List TrimEntry := stableSort (leKey trimKey)

/-- `csv_times.sort()` (line 199): datetimes compare chronologically. -/
def sortCsvTimes : List PyDateTime → List PyDateTime :=
  stableSort (leKey PyDateTime.toMicros)

/-- Warnings appended while handling position `i` of the zipped, sorted lists
(src/main.py lines 222-264): the pairwise time-difference check (`>=`,
line 229), then — at odd indices, completing a set — the within-set interval
check (line 260) and the row-match check (line 263), in that order. -/
def warningsAt (cfg : Config) (f : CsvFile) (trims : List TrimEntry)
    (csvs : List PyDateTime) (i : Nat) : List Warning :=
  let e := trims.getD i ("", dt0, 0)
  let d := (e.2.1.toMicros - (csvs.getD i dt0).toMicros).natAbs
  let w1 := if cfg.time_diff_threshold * 1000000 ≤ (d : Int)
            then [Warning.timeDiff e.1 d] else []
  let wset :=
    if i % 2 == 1 then
      let sd := (e.2.1.toMicros - (trims.getD (i - 1) ("", dt0, 0)).2.1.toMicros).natAbs
      let w2 := if cfg.trim_interval_threshold * 1000000 ≤ (sd : Int)
                then [Warning.trimInterval (i / 2 + 1) sd] else []
      let w3 := if cfg.csv_match_required && !csvRowMatchCheck f i
                then [Warning.csvMatch (i / 2 + 1)] else []
      w2 ++ w3
    else []
  w1 ++ wset

/-- The full `warnings` list accumulated for a matched date (iteration over
`zip(trim_times, csv_times)`, so over `min` of the lengths). -/
def dateWarnings (cfg : Config) (f : CsvFile) (trims : List TrimEntry)
    (csvs : List PyDateTime) : List Warning :=
  (List.range (min trims.length csvs.length)).flatMap (warningsAt cfg f trims csvs)

/-- The sequence of pairwise `abs(trim_time - csv_time)` values (line 223),
in iteration order, in microseconds. -/
def pairTimeDiffs (trims : List TrimEntry) (csvs : List PyDateTime) : List Nat :=
  (List.range (min trims.length csvs.length)).map
    (fun i => ((trims.getD i ("", dt0, 0)).2.1.toMicros - (csvs.getD i dt0).toMicros).natAbs)

/-! ## The per-date loop and the run (src/main.py lines 121-365) -/

/-- The `date_summary[date_dir]` record (lines 323-328). -/
structure DateSummary where
  trim_images : Nat
  csv_lines : Nat
  consistent : Bool
  warnings : List Warning
deriving DecidableEq, Repr

/-- What one common date contributes as input: `trimDir` is the `.npy`
listing of `<root>/<date>/affine_data/trim_image/` — `none` folds together
the recoverable per-date skips of lines 130-153 (missing `affine_data`,
missing or non-directory `trim_image`, listing error) — and `csv` is the
first CSV file found for the date (a common date always has one). -/
structure DateData where
  trimDir : Option (List String)
  csv : CsvFile
deriving DecidableEq, Repr

structure LoopState where
  total_trim_images : Nat
  total_csv_lines : Nat
  warningsVar : Option (List Warning)
  date_summary : List (String × DateSummary)
deriving DecidableEq, Repr

def initState : LoopState := ⟨0, 0, none, []⟩

/-- `date_summary[date_dir] = {...}`: dict assignment keeps the original
position of an existing key and appends a new key. -/
def upsert (l : List (String × DateSummary)) (k : String) (s : DateSummary) :
    List (String × DateSummary) :=
  match l with
  | [] => [(k, s)]
  | (k₀, s₀) :: rest => if k₀ = k then (k₀, s) :: rest else (k₀, s₀) :: upsert rest k s

/-- The filename-parsing loop of lines 190-195: filenames that do not match
the pattern are dropped; a `ValueError` raised by `parse_trim_image_time`
propagates out of the whole run. -/
def parseTrimTimes : List String → Except PyExc (List TrimEntry)
  | [] => .ok []
  | fn :: rest =>
      match parse_trim_image_time fn with
      | .error e => .error e
      | .ok none => parseTrimTimes rest
      | .ok (some (t, ms)) =>
          match parseTrimTimes rest with
          | .error e => .error e
          | .ok l => .ok ((fn, t, ms) :: l)

/-- The body of `for date_dir in common_dates` (src/main.py lines 126-329).
The Python local `warnings` is modelled by `LoopState.warningsVar`: it is
assigned only in the matched-lengths branch (line 220), and line 327 reads
whatever value it has — the previous iteration's list if the branch was
skipped, and an `UnboundLocalError` if no iteration has assigned it yet. -/
def processDate (cfg : Config) (st : LoopState) (k : String) (dd : DateData) :
    Except PyExc LoopState :=
  match dd.trimDir with
  | none => .ok st
  | some listing =>
      let trim_files := listing.filter endsWithNpy
      match readCsvTimes dd.csv with
      | .error e => .error e
      | .ok none => .ok st
      | .ok (some csvTimes) =>
          match parseTrimTimes trim_files with
          | .error e => .error e
          | .ok entries =>
              let trim_times := sortTrimTimes entries
              let csv_times := sortCsvTimes csvTimes
              let wv := if trim_times.length == csv_times.length
                        then some (dateWarnings cfg dd.csv trim_times csv_times)
                        else st.warningsVar
              match wv with
              | none => .error .unboundLocalError
              | some ws =>
                  .ok ⟨st.total_trim_images + trim_times.length,
                       st.total_csv_lines + csv_times.length,
                       some ws,
                       upsert st.date_summary k
                         ⟨trim_times.length, csv_times.length,
                          trim_times.length == csv_times.length, ws⟩⟩

def runLoop (cfg : Config) : List (String × DateData) → LoopState → Except PyExc LoopState
  | [], st => .ok st
  | (k, dd) :: rest, st =>
      match processDate cfg st k dd with
      | .error e => .error e
      | .ok st' => runLoop cfg rest st'

/-- Lexicographic (code-point) order on strings, as Python compares digit
strings. -/
def charListLe : List Char → List Char → Bool
  | [], _ => true
  | _ :: _, [] => false
  | a :: l₁, b :: l₂ =>
      if a.toNat < b.toNat then true
      else if b.toNat < a.toNat then false
      else charListLe l₁ l₂

def summaryKeyLe (a b : String × DateSummary) : Bool :=
  charListLe a.1.toList b.1.toList

/-- `for date_dir in sorted(date_summary.keys())` with the dict lookup
(lines 353-357): traverse the summaries in ascending key order. -/
def sortSummaries : List (String × DateSummary) → List (String × DateSummary) :=
  stableSort summaryKeyLe

/-- The flattened global warning list (lines 353-357): each date's stored
warnings, prefixed by the date, in ascending date order. -/
def collectAllWarnings (summaries : List (String × DateSummary)) :
    List (String × Warning) :=
  (sortSummaries summaries).flatMap (fun p => p.2.warnings.map (fun w => (p.1, w)))

/-- The observable outcome of a completed run: the per-date summary mapping,
the grand totals (lines 320-321) and the flattened global warning list. -/
structure RunResult where
  date_summary : List (String × DateSummary)
  total_trim_images : Nat
  total_csv_lines : Nat
  all_warnings : List (String × Warning)
deriving DecidableEq, Repr

/-- `check_trim_image_csv_timing` from the per-date loop on: the discovery
phase (lines 64-119) has produced the sorted list of common dates with their
data; an uncaught exception aborts the run before any final summary. -/
def runCheck (cfg : Config) (dates : List (String × DateData)) :
    Except PyExc RunResult :=
  match runLoop cfg dates initState with
  | .error e => .error e
  | .ok st => .ok ⟨st.date_summary, st.total_trim_images, st.total_csv_lines,
                   collectAllWarnings st.date_summary⟩

/-! ## Properties of the stable sort -/

theorem insertSorted_perm (le : α → α → Bool) (a : α) (l : List α) :
    List.Perm (insertSorted le a l) (a :: l) := by
  induction l with
  | nil => simp [insertSorted]
  | cons b l ih =>
      by_cases h : le a b = true
      · simp [insertSorted, h]
      · simp only [insertSorted, h, if_false, Bool.false_eq_true, if_neg, not_false_iff]
        exact (ih.cons b).trans (List.Perm.swap a b l)

theorem stableSort_perm (le : α → α → Bool) (l : List α) :
    List.Perm (stableSort le l) l := by
  induction l with
  | nil => simp [stableSort]
  | cons a l ih =>
      exact (insertSorted_perm le a (stableSort le l)).trans (ih.cons a)

theorem stableSort_length (le : α → α → Bool) (l : List α) :
    (stableSort le l).length = l.length :=
  (stableSort_perm le l).length_eq

theorem insertSorted_pairwise (key : α → Int) (a : α) (l : List α)
    (h : l.Pairwise (fun x y => key x ≤ key y)) :
    (insertSorted (leKey key) a l).Pairwise (fun x y => key x ≤ key y) := by
  induction l with
  | nil => simp [insertSorted]
  | cons b l ih =>
      rw [List.pairwise_cons] at h
      obtain ⟨hb, hl⟩ := h
      by_cases hab : key a ≤ key b
      · have hc : leKey key a b = true := by simp [leKey, hab]
        simp only [insertSorted, hc, if_true]
        refine List.Pairwise.cons ?_ (List.Pairwise.cons hb hl)
        intro x hx
        rcases List.mem_cons.mp hx with rfl | hx
        · exact hab
        · exact le_trans hab (hb x hx)
      · have hba : key b ≤ key a := le_of_not_le hab
        have hc : leKey key a b = false := by simp [leKey, hab]
        simp only [insertSorted, hc, Bool.false_eq_true, if_false, if_neg, not_false_iff]
        refine List.Pairwise.cons ?_ (ih hl)
        intro x hx
        have hx' : x ∈ a :: l := (insertSorted_perm (leKey key) a l).subset hx
        rcases List.mem_cons.mp hx' with rfl | hx'
        · exact hba
        · exact hb x hx'

theorem stableSort_pairwise (key : α → Int) (l : List α) :
    (stableSort (leKey key) l).Pairwise (fun x y => key x ≤ key y) := by
  induction l with
  | nil => simp [stableSort]
  | cons a l ih => exact insertSorted_pairwise key a _ ih

/-- Two sorted lists with the same elements and pairwise-distinct keys are
equal. -/
theorem sorted_perm_eq_of_nodup_key (key : α → Int) (l₁ : List α) :
    ∀ l₂, List.Perm l₁ l₂ → l₁.Pairwise (fun x y => key x ≤ key y) →
      l₂.Pairwise (fun x y => key x ≤ key y) → (l₁.map key).Nodup → l₁ = l₂ := by
  induction l₁ with
  | nil =>
      intro l₂ hp _ _ _
      exact hp.nil_eq
  | cons a t₁ ih =>
      intro l₂ hp hs₁ hs₂ hnd
      cases l₂ with
      | nil =>
          have := hp.length_eq
          simp at this
      | cons b t₂ =>
          have hab : a = b := by
            by_contra hne
            have ha2 : a ∈ t₂ := by
              rcases List.mem_cons.mp (hp.mem_iff.mp (List.mem_cons_self a t₁)) with h | h
              · exact absurd h hne
              · exact h
            have hb1 : b ∈ t₁ := by
              rcases List.mem_cons.mp (hp.symm.mem_iff.mp (List.mem_cons_self b t₂)) with h | h
              · exact absurd h.symm hne
              · exact h
            have h₁ : key a ≤ key b := (List.pairwise_cons.mp hs₁).1 b hb1
            have h₂ : key b ≤ key a := (List.pairwise_cons.mp hs₂).1 a ha2
            have hmem : key a ∈ t₁.map key :=
              List.mem_map.mpr ⟨b, hb1, (le_antisymm h₂ h₁)⟩
            rw [List.map_cons, List.nodup_cons] at hnd
            exact hnd.1 hmem
          subst hab
          have ht : List.Perm t₁ t₂ := hp.cons_inv
          rw [List.map_cons, List.nodup_cons] at hnd
          rw [ih t₂ ht (List.pairwise_cons.mp hs₁).2 (List.pairwise_cons.mp hs₂).2 hnd.2]

/-- The image of the sorted list under the key depends only on the multiset of
inputs. -/
theorem stableSort_map_key_eq (key : α → Int) (l₁ l₂ : List α)
    (hp : List.Perm l₁ l₂) :
    (stableSort (leKey key) l₁).map key = (stableSort (leKey key) l₂).map key := by
  have hs₁ : List.Sorted (fun x y : Int => x ≤ y) ((stableSort (leKey key) l₁).map key) :=
    List.Pairwise.map key (fun a b h => h) (stableSort_pairwise key l₁)
  have hs₂ : List.Sorted (fun x y : Int => x ≤ y) ((stableSort (leKey key) l₂).map key) :=
    List.Pairwise.map key (fun a b h => h) (stableSort_pairwise key l₂)
  exact List.eq_of_perm_of_sorted
    (((stableSort_perm _ l₁).trans (hp.trans (stableSort_perm _ l₂).symm)).map key) hs₁ hs₂

/-- With pairwise-distinct keys the sorted list itself depends only on the
multiset of inputs. -/
theorem stableSort_eq_of_nodup_key (key : α → Int) (l₁ l₂ : List α)
    (hp : List.Perm l₁ l₂) (hnd : (l₁.map key).Nodup) :
    stableSort (leKey key) l₁ = stableSort (leKey key) l₂ := by
  apply sorted_perm_eq_of_nodup_key key
  · exact (stableSort_perm _ l₁).trans (hp.trans (stableSort_perm _ l₂).symm)
  · exact stableSort_pairwise key l₁
  · exact stableSort_pairwise key l₂
  · exact (((stableSort_perm (leKey key) l₁).map key).symm).nodup hnd

/-! ## Congruence lemmas for the per-date analysis -/

theorem getD_map_key (f : α → β) (l : List α) (i : Nat) (d : α) :
    (l.map f).getD i (f d) = f (l.getD i d) := by
  induction l generalizing i with
  | nil => simp
  | cons a t ih =>
      cases i with
      | zero => simp
      | succ j => simp only [List.map_cons, List.getD_cons_succ]; exact ih j

theorem flatMap_congr_left (l : List α) (f g : α → List β)
    (h : ∀ a ∈ l, f a = g a) : l.flatMap f = l.flatMap g := by
  induction l with
  | nil => simp
  | cons a t ih =>
      simp only [List.flatMap_cons]
      rw [h a (List.mem_cons_self a t), ih (fun x hx => h x (List.mem_cons_of_mem a hx))]

/-- The pairwise time differences depend only on the two key sequences. -/
theorem pairTimeDiffs_congr (t₁ t₂ : List TrimEntry) (c₁ c₂ : List PyDateTime)
    (ht : t₁.map trimKey = t₂.map trimKey)
    (hc : c₁.map PyDateTime.toMicros = c₂.map PyDateTime.toMicros) :
    pairTimeDiffs t₁ c₁ = pairTimeDiffs t₂ c₂ := by
  have hlt : t₁.length = t₂.length := by
    simpa using congrArg List.length ht
  have hlc : c₁.length = c₂.length := by
    simpa using congrArg List.length hc
  unfold pairTimeDiffs
  rw [hlt, hlc]
  apply List.map_congr_left
  intro i _
  have e₁ : (t₁.getD i ("", dt0, 0)).2.1.toMicros = (t₂.getD i ("", dt0, 0)).2.1.toMicros := by
    show trimKey (t₁.getD i ("", dt0, 0)) = trimKey (t₂.getD i ("", dt0, 0))
    rw [← getD_map_key trimKey t₁ i ("", dt0, 0), ← getD_map_key trimKey t₂ i ("", dt0, 0), ht]
  have e₂ : (c₁.getD i dt0).toMicros = (c₂.getD i dt0).toMicros := by
    have g₁ := getD_map_key PyDateTime.toMicros c₁ i dt0
    have g₂ := getD_map_key PyDateTime.toMicros c₂ i dt0
    rw [← g₁, ← g₂, hc]
  rw [e₁, e₂]

/-- The warning list depends on the CSV side only through its key sequence. -/
theorem dateWarnings_congr_csv (cfg : Config) (f : CsvFile) (t : List TrimEntry)
    (c₁ c₂ : List PyDateTime)
    (hc : c₁.map PyDateTime.toMicros = c₂.map PyDateTime.toMicros) :
    dateWarnings cfg f t c₁ = dateWarnings cfg f t c₂ := by
  have hlc : c₁.length = c₂.length := by
    simpa using congrArg List.length hc
  unfold dateWarnings
  rw [hlc]
  apply flatMap_congr_left
  intro i _
  have e₂ : (c₁.getD i dt0).toMicros = (c₂.getD i dt0).toMicros := by
    have g₁ := getD_map_key PyDateTime.toMicros c₁ i dt0
    have g₂ := getD_map_key PyDateTime.toMicros c₂ i dt0
    rw [← g₁, ← g₂, hc]
  unfold warningsAt
  rw [e₂]

/-! ## The summary invariant -/

theorem mem_upsert (l : List (String × DateSummary)) (k : String) (s : DateSummary)
    (p : String × DateSummary) (hp : p ∈ upsert l k s) : p = (k, s) ∨ p ∈ l := by
  induction l with
  | nil =>
      simp only [upsert, List.mem_singleton] at hp
      exact Or.inl hp
  | cons q t ih =>
      obtain ⟨k₀, s₀⟩ := q
      simp only [upsert] at hp
      by_cases hk : k₀ = k
      · rw [if_pos hk] at hp
        rcases List.mem_cons.mp hp with hh | hh
        · subst hk
          exact Or.inl hh
        · exact Or.inr (List.mem_cons_of_mem _ hh)
      · rw [if_neg hk] at hp
        rcases List.mem_cons.mp hp with hh | hh
        · exact Or.inr (by simp [hh])
        · rcases ih hh with hh' | hh'
          · exact Or.inl hh'
          · exact Or.inr (List.mem_cons_of_mem _ hh')

/-- Every summary `processDate` records has `consistent` computed as the
equality test of its two recorded counts. -/
theorem processDate_summary_inv (cfg : Config) (st : LoopState) (k : String)
    (dd : DateData) (st' : LoopState)
    (h : processDate cfg st k dd = .ok st')
    (hinv : ∀ p ∈ st.date_summary, p.2.consistent = (p.2.trim_images == p.2.csv_lines)) :
    ∀ p ∈ st'.date_summary, p.2.consistent = (p.2.trim_images == p.2.csv_lines) := by
  obtain ⟨td, f⟩ := dd
  cases td with
  | none =>
      simp only [processDate] at h
      cases h
      exact hinv
  | some listing =>
      simp only [processDate] at h
      split at h
      · exact absurd h (by simp)
      · cases h
        exact hinv
      · split at h
        · exact absurd h (by simp)
        · split at h
          · exact absurd h (by simp)
          · cases h
            intro p hp
            rcases mem_upsert _ _ _ p hp with rfl | hm
            · rfl
            · exact hinv p hm

theorem runLoop_summary_inv (cfg : Config) (dates : List (String × DateData)) :
    ∀ (st st' : LoopState), runLoop cfg dates st = .ok st' →
      (∀ p ∈ st.date_summary, p.2.consistent = (p.2.trim_images == p.2.csv_lines)) →
      ∀ p ∈ st'.date_summary, p.2.consistent = (p.2.trim_images == p.2.csv_lines) := by
  induction dates with
  | nil =>
      intro st st' h hinv
      simp only [runLoop] at h
      cases h
      exact hinv
  | cons hd rest ih =>
      intro st st' h hinv
      obtain ⟨k, dd⟩ := hd
      simp only [runLoop] at h
      split at h
      · exact absurd h (by simp)
      · rename_i st₁ hst₁
        exact ih st₁ st' h (processDate_summary_inv cfg st k dd st₁ hst₁ hinv)

/-! ## Claim C1 -/

/-- C1: for every DateKey processed to completion (those recorded in the
summary mapping of a finished run), the summary marks the date consistent if
and only if its recorded image count equals its recorded CSV row count. -/
theorem c1_consistent_iff_counts (cfg : Config) (dates : List (String × DateData))
    (rs : RunResult) (k : String) (s : DateSummary)
    (hrun : runCheck cfg dates = .ok rs)
    (hmem : (k, s) ∈ rs.date_summary) :
    s.consistent = true ↔ s.trim_images = s.csv_lines := by
  unfold runCheck at hrun
  split at hrun
  · exact absurd hrun (by simp)
  · rename_i st hst
    cases hrun
    have hinv := runLoop_summary_inv cfg dates initState st hst (by intro p hp; simp [initState] at hp)
    have hs := hinv (k, s) hmem
    rw [hs]
    exact beq_iff_eq

def c1dates : List (String × DateData) :=
  [("20240101", ⟨some ["20240101-000000-0.npy"],
    ⟨⟨[["time"], ["2024/01/01 0:00"]], .ok⟩, ⟨[], .ok⟩⟩⟩)]

def c1sum : DateSummary := ⟨1, 1, true, []⟩

def c1rs : RunResult := ⟨[("20240101", c1sum)], 1, 1, []⟩

theorem c1_consistent_iff_counts_witness :
    runCheck cfgDefault c1dates = .ok c1rs ∧ ("20240101", c1sum) ∈ c1rs.date_summary ∧
      (c1sum.consistent = true ↔ c1sum.trim_images = c1sum.csv_lines) :=
  ⟨by decide, by decide,
   c1_consistent_iff_counts cfgDefault c1dates c1rs "20240101" c1sum (by decide) (by decide)⟩

/-! ## Claim C3 (code bug: the Python local `warnings` leaks across dates) -/

def c3warning : Warning := .timeDiff "20240101-000000-0.npy" 3600000000

def c3dates : List (String × DateData) :=
  [("20240101", ⟨some ["20240101-000000-0.npy"],
      ⟨⟨[["time"], ["2024/01/01 1:00"]], .ok⟩, ⟨[], .ok⟩⟩⟩),
   ("20240102", ⟨some ["20240102-000000-0.npy"],
      ⟨⟨[["time"]], .ok⟩, ⟨[], .ok⟩⟩⟩)]

/-- C3 exhibits a code bug: date 20240101 is matched and accumulates one
warning; date 20240102 has mismatched lengths, so line 220 never reassigns
`warnings` and line 327 stores the *previous* date's list in its summary.
The flattened global list then repeats 20240101's warning under the
20240102 key, instead of being the concatenation of each date's own
warnings (which would list it once). -/
theorem c3_stale_warnings_bug :
    runCheck cfgDefault c3dates = .ok
      ⟨[("20240101", ⟨1, 1, true, [c3warning]⟩),
        ("20240102", ⟨1, 0, false, [c3warning]⟩)],
       2, 1,
       [("20240101", c3warning), ("20240102", c3warning)]⟩ := by decide

/-! ## Claim C6 (code bug: `UnboundLocalError` on a first mismatched date) -/

def c6dates : List (String × DateData) :=
  [("20240101", ⟨some ["20240101-000000-0.npy"],
    ⟨⟨[["time"]], .ok⟩, ⟨[], .ok⟩⟩⟩)]

/-- C6 exhibits a code bug: when the very first date processed to the summary
step has mismatched list lengths (here one parsed image against a header-only
CSV), line 327 reads the local `warnings` before any assignment, so the run
aborts with `UnboundLocalError` — the date is not recorded, the counts never
reach a printed total and no summary is produced, contrary to the claim. -/
theorem c6_unbound_local_bug :
    runCheck cfgDefault c6dates = .error .unboundLocalError := by decide

/-! ## Claim C9 -/

/-- C9: the worked example — `20241213-073154-781.npy` parses to the
timestamp 2024-12-13T07:31:54.781 (781 milliseconds stored as 781000
microseconds), with 781 returned as the millisecond component. -/
theorem c9_example_parse :
    parse_trim_image_time "20241213-073154-781.npy" =
      .ok (some (⟨2024, 12, 13, 7, 31, 54, 781000⟩, 781)) := by decide

/-! ## Claim C5 (counterexample: the reported count is not the raw `.npy` count) -/

def c5dates : List (String × DateData) :=
  [("20240101", ⟨some ["foo.npy"], ⟨⟨[["time"]], .ok⟩, ⟨[], .ok⟩⟩⟩)]

/-- C5 counterexample: the date's directory holds exactly one `.npy` file,
but its name does not match the timestamp pattern, so the summary records
image count 0 and the grand total stays 0 — the claim's "regardless of
whether each filename matches the timestamp pattern" fails. -/
theorem c5_counterexample :
    (["foo.npy"].filter endsWithNpy).length = 1 ∧
      runCheck cfgDefault c5dates = .ok ⟨[("20240101", ⟨0, 0, true, []⟩)], 0, 0, []⟩ :=
  ⟨by decide, by decide⟩

/-! ## Claim C10 (counterexample: an empty CSV does not always crash the run) -/

def c10file : CsvFile := ⟨⟨[], .ok⟩, ⟨[], .ok⟩⟩

def c10dates : List (String × DateData) := [("20240101", ⟨none, c10file⟩)]

/-- C10 counterexample: a run containing a common date whose selected CSV
file is empty, but whose `trim_image` directory is missing — the date is
skipped *before* the CSV is opened, the header skip never executes, and the
run finishes normally with a (here empty) final summary instead of
terminating with `StopIteration`. -/
theorem c10_counterexample :
    c10file.utf8.rows = [] ∧ c10file.utf8.err = .ok ∧
      runCheck cfgDefault c10dates = .ok ⟨[], 0, 0, []⟩ :=
  ⟨rfl, rfl, by decide⟩

/-! ## Claim C7 (counterexample: a pattern match can still raise) -/

/-- C7 counterexample: `20241213-073154-1000.npy` matches the pattern
`<8 digits>-<6 digits>-<1+ digits>.npy`, but
`replace(microsecond=1000*1000)` raises `ValueError` because 1000000 exceeds
the 0..999999 microsecond range, so `parse_trim_image_time` does not succeed. -/
theorem c7_counterexample :
    matchTrimPattern "20241213-073154-1000.npy" =
        some ("20241213".toList, "073154".toList, "1000".toList) ∧
      parse_trim_image_time "20241213-073154-1000.npy" = .error .valueError :=
  ⟨by decide, by decide⟩

/-! ## Claim C2 (the Shift-JIS retry appends to the already-filled list) -/

def c2file : CsvFile :=
  ⟨⟨[["time"], ["2024/12/13 7:31"]], .decodeErr⟩,
   ⟨[["time"], ["2024/12/13 7:32"], ["2024/12/13 7:33"]], .ok⟩⟩

/-- C2 counterexample: the UTF-8 attempt yields its header and one data row
before failing to decode; the retry parses two rows.  `csv_times` is never
reset between the attempts (lines 164, 175-184), so the resulting list keeps
the row from the failed first attempt and differs from the list parsed during
the retry alone. -/
theorem c2_counterexample :
    c2file.utf8.err = ReadErr.decodeErr ∧
      readCsvTimes c2file = .ok (some
        [⟨2024, 12, 13, 7, 31, 0, 0⟩, ⟨2024, 12, 13, 7, 32, 0, 0⟩, ⟨2024, 12, 13, 7, 33, 0, 0⟩]) ∧
      parseRows c2file.sjis.rows.tail =
        [⟨2024, 12, 13, 7, 32, 0, 0⟩, ⟨2024, 12, 13, 7, 33, 0, 0⟩] ∧
      ([⟨2024, 12, 13, 7, 31, 0, 0⟩, ⟨2024, 12, 13, 7, 32, 0, 0⟩,
        ⟨2024, 12, 13, 7, 33, 0, 0⟩] : List PyDateTime) ≠
        [⟨2024, 12, 13, 7, 32, 0, 0⟩, ⟨2024, 12, 13, 7, 33, 0, 0⟩] :=
  ⟨rfl, by decide, by decide, by decide⟩

/-- C2 (amended): on a UTF-8 decode failure the same file is retried with
Shift-JIS; the resulting timestamp list is the timestamps parsed before the
decode failure in the first attempt followed by those parsed during the
retry.  If the retry also fails (decode error, or nothing to yield for the
header skip), the date is skipped with an error note and the loop continues
with the remaining dates unchanged. -/
theorem c2_retry_behaviour (f : CsvFile) (hdec : f.utf8.err = ReadErr.decodeErr) :
    (∀ hd t, f.sjis.rows = hd :: t → f.sjis.err = ReadErr.ok →
        readCsvTimes f = .ok (some (parseRows f.utf8.rows.tail ++ parseRows t)))
    ∧ (f.sjis.rows = [] ∨ f.sjis.err = ReadErr.decodeErr → readCsvTimes f = .ok none)
    ∧ (∀ cfg st k dd rest, dd.csv = f → readCsvTimes f = .ok none →
        runLoop cfg ((k, dd) :: rest) st = runLoop cfg rest st) := by
  obtain ⟨⟨urows, uerr⟩, ⟨srows, serr⟩⟩ := f
  subst hdec
  refine ⟨?_, ?_, ?_⟩
  · intro hd t hrows herr
    subst hrows
    subst herr
    cases urows with
    | nil => simp [readCsvTimes, sjisRetry, parseRows]
    | cons h0 t0 => simp [readCsvTimes, sjisRetry]
  · intro hfail
    rcases hfail with h | h
    · subst h
      cases urows with
      | nil => cases serr <;> simp [readCsvTimes, sjisRetry]
      | cons h0 t0 => cases serr <;> simp [readCsvTimes, sjisRetry]
    · subst h
      cases urows with
      | nil => cases srows <;> simp [readCsvTimes, sjisRetry]
      | cons h0 t0 => cases srows <;> simp [readCsvTimes, sjisRetry]
  · intro cfg st k dd rest hcsv hnone
    obtain ⟨td, f'⟩ := dd
    simp only at hcsv
    subst hcsv
    cases td with
    | none => simp [runLoop, processDate]
    | some listing => simp [runLoop, processDate, hnone]

theorem c2_retry_behaviour_witness :
    c2file.utf8.err = ReadErr.decodeErr ∧
      readCsvTimes c2file = .ok (some (parseRows c2file.utf8.rows.tail ++
        parseRows [["2024/12/13 7:32"], ["2024/12/13 7:33"]])) :=
  ⟨rfl, (c2_retry_behaviour c2file rfl).1 ["time"]
    [["2024/12/13 7:32"], ["2024/12/13 7:33"]] rfl rfl⟩

/-! ## Claim C5 (amended): the recorded count is the parsed-image count -/

/-- C5 (amended): whenever a date is processed to completion, the image count
recorded in its summary — and the amount added to the grand totals — is the
number of `.npy` files whose names parse under the timestamp pattern
(`parseTrimTimes` keeps exactly those), together with the parsed CSV row
count; the raw `.npy` count of line 150 is computed but never reported. -/
theorem c5_amended_recorded_counts (cfg : Config) (st st' : LoopState)
    (k : String) (dd : DateData) (listing : List String)
    (ct : List PyDateTime) (entries : List TrimEntry)
    (hdir : dd.trimDir = some listing)
    (hcsv : readCsvTimes dd.csv = .ok (some ct))
    (hparse : parseTrimTimes (listing.filter endsWithNpy) = .ok entries)
    (h : processDate cfg st k dd = .ok st') :
    ∃ ws, st'.date_summary = upsert st.date_summary k
        ⟨entries.length, ct.length, entries.length == ct.length, ws⟩
      ∧ st'.total_trim_images = st.total_trim_images + entries.length
      ∧ st'.total_csv_lines = st.total_csv_lines + ct.length := by
  obtain ⟨td, f⟩ := dd
  simp only at hdir hcsv
  subst hdir
  simp only [processDate, hcsv, hparse] at h
  have hlt : (sortTrimTimes entries).length = entries.length := stableSort_length _ _
  have hlc : (sortCsvTimes ct).length = ct.length := stableSort_length _ _
  rw [hlt, hlc] at h
  split at h
  · exact absurd h (by simp)
  · rename_i ws hws
    cases h
    exact ⟨ws, rfl, rfl, rfl⟩

def c5file : CsvFile := ⟨⟨[["time"]], .ok⟩, ⟨[], .ok⟩⟩

def c5dd : DateData := ⟨some ["foo.npy"], c5file⟩

def c5state : LoopState := ⟨0, 0, some [], [("20240101", ⟨0, 0, true, []⟩)]⟩

theorem c5_amended_recorded_counts_witness :
    processDate cfgDefault initState "20240101" c5dd = .ok c5state ∧
      (∃ ws, c5state.date_summary = upsert initState.date_summary "20240101"
          ⟨(([] : List TrimEntry)).length, (([] : List PyDateTime)).length,
           (([] : List TrimEntry)).length == (([] : List PyDateTime)).length, ws⟩
        ∧ c5state.total_trim_images = initState.total_trim_images + (([] : List TrimEntry)).length
        ∧ c5state.total_csv_lines = initState.total_csv_lines + (([] : List PyDateTime)).length) :=
  ⟨by decide,
   c5_amended_recorded_counts cfgDefault initState c5state "20240101" c5dd
     ["foo.npy"] [] [] rfl (by decide) (by decide) (by decide)⟩

/-! ## Claim C7 (amended): in-range pattern matches parse successfully -/

/-- C7 (amended): for every filename matching the pattern whose date and time
components form a valid calendar date and time of day and whose trailing
digits are at most 999, `parse_trim_image_time` succeeds and returns the
timestamp combining the date, the time and the trailing digits as
milliseconds (stored as microseconds); trailing digits of 1000 or more, or
out-of-range date/time components, raise `ValueError` instead. -/
theorem c7_amended_parse_ok (s : String) (g1 g2 g3 : List Char)
    (hm : matchTrimPattern s = some (g1, g2, g3))
    (hok : trimComponentsOk (digitsVal (g1.take 4)) (digitsVal ((g1.drop 4).take 2))
        (digitsVal (g1.drop 6)) (digitsVal (g2.take 2)) (digitsVal ((g2.drop 2).take 2))
        (digitsVal (g2.drop 4)) = true)
    (hms : digitsVal g3 ≤ 999) :
    parse_trim_image_time s =
      .ok (some (⟨digitsVal (g1.take 4), digitsVal ((g1.drop 4).take 2),
        digitsVal (g1.drop 6), digitsVal (g2.take 2), digitsVal ((g2.drop 2).take 2),
        digitsVal (g2.drop 4), digitsVal g3 * 1000⟩, digitsVal g3)) := by
  have h2 : digitsVal g3 * 1000 ≤ 999999 := by omega
  unfold parse_trim_image_time
  rw [hm]
  simp [hok, h2]

theorem c7_amended_parse_ok_witness :
    parse_trim_image_time "20240102-120000-5.npy" =
      .ok (some (⟨2024, 1, 2, 12, 0, 0, 5000⟩, 5)) := by
  have h := c7_amended_parse_ok "20240102-120000-5.npy"
    ("20240102".toList) ("120000".toList) ("5".toList) (by decide) (by decide) (by decide)
  exact h

/-! ## Claim C4: which sets get a CSV-row-match warning -/

theorem csvRowMatchCheck_true_iff (f : CsvFile) (i : Nat) :
    csvRowMatchCheck f i = true ↔
      ∃ dataRows, (∃ hd, f.utf8.rows = hd :: dataRows) ∧ f.utf8.err = ReadErr.ok ∧
        i < dataRows.length ∧ dataRows.getD (i - 1) [] = dataRows.getD i [] := by
  obtain ⟨⟨urows, uerr⟩, s⟩ := f
  cases urows with
  | nil => simp [csvRowMatchCheck]
  | cons h0 t0 =>
      cases uerr with
      | ok =>
          simp only [csvRowMatchCheck]
          constructor
          · intro h
            by_cases hi : i < t0.length
            · rw [if_pos hi] at h
              exact Exists.intro t0 (And.intro (Exists.intro h0 rfl)
                (And.intro trivial (And.intro hi (beq_iff_eq.mp h))))
            · rw [if_neg hi] at h
              exact absurd h (by simp)
          · rintro ⟨dataRows, ⟨hd, heq⟩, _, hi, hget⟩
            injection heq with h₁ h₂
            subst h₂
            rw [if_pos hi]
            exact beq_iff_eq.mpr hget
      | decodeErr => simp [csvRowMatchCheck]

/-- A `csvMatch` warning appears in the warnings of position `i` exactly when
`i` is odd, carries that set's number, and the re-read comparison failed with
`csv_match_required` on. -/
theorem csvMatch_mem_warningsAt (cfg : Config) (f : CsvFile)
    (trims : List TrimEntry) (csvs : List PyDateTime) (i j : Nat) :
    Warning.csvMatch j ∈ warningsAt cfg f trims csvs i ↔
      (i % 2 = 1 ∧ j = i / 2 + 1 ∧ cfg.csv_match_required = true ∧
        csvRowMatchCheck f i = false) := by
  unfold warningsAt
  simp only [List.mem_append]
  constructor
  · intro h
    rcases h with h | h
    · split at h <;> simp at h
    · split at h
      · rename_i hodd
        simp only [List.mem_append] at h
        rcases h with h | h
        · split at h <;> simp at h
        · split at h
          · rename_i hcond
            simp only [List.mem_singleton, Warning.csvMatch.injEq] at h
            subst h
            have hmod : i % 2 = 1 := by
              have := of_decide_eq_true (by simpa using hodd)
              omega
            rw [Bool.and_eq_true, Bool.not_eq_true'] at hcond
            exact ⟨hmod, rfl, hcond.1, hcond.2⟩
          · simp at h
      · simp at h
  · rintro ⟨hodd, rfl, hreq, hchk⟩
    refine Or.inr ?_
    have hob : (i % 2 == 1) = true := by simp [hodd]
    rw [if_pos hob]
    refine List.mem_append.mpr (Or.inr ?_)
    have hcond : (cfg.csv_match_required && !csvRowMatchCheck f i) = true := by
      rw [hreq, hchk]
      rfl
    rw [if_pos hcond]
    simp

/-- C4 (amended): for a date with matched list lengths, the set completed at
sorted position `2k+1` produces a CSV-row-match warning if and only if
`csv_match_required` is true and the comparison of the *positionally indexed
raw rows* fails — that is, unless the UTF-8 re-read of the file succeeds,
yields more than `2k+1` data rows, and its data rows at positions `2k` and
`2k+1` are field-equal.  (The compared rows are raw file rows indexed by the
sorted position; they coincide with the rows underlying the set's two
timestamps only when no row was dropped or reordered.) -/
theorem c4_amended_warning_iff (cfg : Config) (f : CsvFile)
    (trims : List TrimEntry) (csvs : List PyDateTime) (k : Nat)
    (hlen : trims.length = csvs.length)
    (hk : 2 * k + 1 < csvs.length) :
    Warning.csvMatch (k + 1) ∈ dateWarnings cfg f trims csvs ↔
      (cfg.csv_match_required = true ∧
        ¬ ∃ dataRows, (∃ hd, f.utf8.rows = hd :: dataRows) ∧ f.utf8.err = ReadErr.ok ∧
            2 * k + 1 < dataRows.length ∧
            dataRows.getD (2 * k) [] = dataRows.getD (2 * k + 1) []) := by
  unfold dateWarnings
  rw [hlen, min_self, List.mem_flatMap]
  constructor
  · rintro ⟨i, hi, hw⟩
    rw [csvMatch_mem_warningsAt] at hw
    obtain ⟨hmod, hj, hreq, hchk⟩ := hw
    have hik : i = 2 * k + 1 := by omega
    subst hik
    refine ⟨hreq, fun hex => ?_⟩
    have : csvRowMatchCheck f (2 * k + 1) = true := by
      rw [csvRowMatchCheck_true_iff]
      obtain ⟨dataRows, h₁, h₂, h₃, h₄⟩ := hex
      exact ⟨dataRows, h₁, h₂, h₃, by simpa using h₄⟩
    rw [hchk] at this
    exact absurd this (by simp)
  · rintro ⟨hreq, hnex⟩
    refine ⟨2 * k + 1, List.mem_range.mpr hk, ?_⟩
    rw [csvMatch_mem_warningsAt]
    refine ⟨by omega, by omega, hreq, ?_⟩
    cases hchk : csvRowMatchCheck f (2 * k + 1) with
    | false => rfl
    | true =>
        rw [csvRowMatchCheck_true_iff] at hchk
        obtain ⟨dataRows, h₁, h₂, h₃, h₄⟩ := hchk
        exact absurd ⟨dataRows, h₁, h₂, h₃, by simpa using h₄⟩ hnex

def c4row : List String := ["2024/12/13 7:31", "v"]

def c4file : CsvFile := ⟨⟨[["time"], ["x"], c4row, c4row], .ok⟩, ⟨[], .ok⟩⟩

def c4trims : List TrimEntry :=
  [("20241213-073100-0.npy", ⟨2024, 12, 13, 7, 31, 0, 0⟩, 0),
   ("20241213-073100-1.npy", ⟨2024, 12, 13, 7, 31, 0, 1000⟩, 1)]

/-- The data rows that contribute a timestamp to `csv_times` (non-blank first
column that parses). -/
def contributingRows (rows : List (List String)) : List (List String) :=
  rows.filter (fun r => (parseRowTime r).isSome)

def c4csvs : List PyDateTime := sortCsvTimes (parseRows c4file.utf8.rows.tail)

/-- C4 counterexample: the file's first data row (`["x"]`) is silently
dropped while building `csv_times`, so both of the date's timestamps come
from the two *equal* copies of `c4row` — the set's underlying raw rows are
field-equal and the claim demands no warning — yet the code compares raw
rows at positions 0 and 1 (`["x"]` against `c4row`), finds them different,
and emits the CSV-row-match warning. -/
theorem c4_counterexample :
    cfgDefault.csv_match_required = true ∧
      contributingRows c4file.utf8.rows.tail = [c4row, c4row] ∧
      dateWarnings cfgDefault c4file c4trims c4csvs = [Warning.csvMatch 1] :=
  ⟨rfl, by decide, by decide⟩

theorem c4_amended_warning_iff_witness :
    c4trims.length = c4csvs.length ∧ 2 * 0 + 1 < c4csvs.length ∧
      (Warning.csvMatch (0 + 1) ∈ dateWarnings cfgDefault c4file c4trims c4csvs ↔
        (cfgDefault.csv_match_required = true ∧
          ¬ ∃ dataRows, (∃ hd, c4file.utf8.rows = hd :: dataRows) ∧
              c4file.utf8.err = ReadErr.ok ∧ 2 * 0 + 1 < dataRows.length ∧
              dataRows.getD (2 * 0) [] = dataRows.getD (2 * 0 + 1) [])) :=
  ⟨by decide, by decide,
   c4_amended_warning_iff cfgDefault c4file c4trims c4csvs 0 (by decide) (by decide)⟩

/-! ## Claim C8: permutation invariance of the pairing analysis -/

def c8time : PyDateTime := ⟨2024, 1, 1, 0, 0, 0, 0⟩

def c8csv : List PyDateTime := [⟨2024, 1, 1, 0, 0, 0, 0⟩, ⟨2024, 1, 1, 0, 6, 40, 0⟩]

def c8t1 : List TrimEntry :=
  [("20240101-000000-0.npy", c8time, 0), ("20240101-000000-00.npy", c8time, 0)]

def c8t2 : List TrimEntry :=
  [("20240101-000000-00.npy", c8time, 0), ("20240101-000000-0.npy", c8time, 0)]

def c8file : CsvFile := ⟨⟨[["time"], ["x"], ["x"]], .ok⟩, ⟨[], .ok⟩⟩

/-- C8 counterexample: two distinct filenames parse to the *same* timestamp
(trailing digits `0` and `00` both mean 0 ms).  The stable sort keeps them in
input order, and the second CSV time is 400 s later, so the pair at position
1 triggers a time-difference warning naming whichever file the input order
put second — permuting the input list changes the produced warning. -/
theorem c8_counterexample :
    List.Perm c8t1 c8t2 ∧
      dateWarnings cfgDefault c8file (sortTrimTimes c8t1) (sortCsvTimes c8csv) ≠
        dateWarnings cfgDefault c8file (sortTrimTimes c8t2) (sortCsvTimes c8csv) :=
  ⟨by decide, by decide⟩

/-- C8 (amended): for permuted inputs the computed pairwise time differences
are always unchanged, and the warnings are unchanged provided no two image
records share the same parsed timestamp (with a timestamp tie, the filename
printed in a time-difference warning can depend on the input order). -/
theorem c8_amended_perm_invariance (cfg : Config) (f : CsvFile)
    (t₁ t₂ : List TrimEntry) (c₁ c₂ : List PyDateTime)
    (hpt : List.Perm t₁ t₂) (hpc : List.Perm c₁ c₂) :
    pairTimeDiffs (sortTrimTimes t₁) (sortCsvTimes c₁) =
      pairTimeDiffs (sortTrimTimes t₂) (sortCsvTimes c₂)
    ∧ ((t₁.map trimKey).Nodup →
        dateWarnings cfg f (sortTrimTimes t₁) (sortCsvTimes c₁) =
          dateWarnings cfg f (sortTrimTimes t₂) (sortCsvTimes c₂)) := by
  have hct : (sortCsvTimes c₁).map PyDateTime.toMicros =
      (sortCsvTimes c₂).map PyDateTime.toMicros :=
    stableSort_map_key_eq PyDateTime.toMicros c₁ c₂ hpc
  constructor
  · exact pairTimeDiffs_congr _ _ _ _ (stableSort_map_key_eq trimKey t₁ t₂ hpt) hct
  · intro hnd
    have ht : sortTrimTimes t₁ = sortTrimTimes t₂ :=
      stableSort_eq_of_nodup_key trimKey t₁ t₂ hpt hnd
    rw [ht]
    exact dateWarnings_congr_csv cfg f _ _ _ hct

def c8wt1 : List TrimEntry :=
  [("20240101-000001-0.npy", ⟨2024, 1, 1, 0, 0, 1, 0⟩, 0),
   ("20240101-000000-0.npy", ⟨2024, 1, 1, 0, 0, 0, 0⟩, 0)]

def c8wt2 : List TrimEntry :=
  [("20240101-000000-0.npy", ⟨2024, 1, 1, 0, 0, 0, 0⟩, 0),
   ("20240101-000001-0.npy", ⟨2024, 1, 1, 0, 0, 1, 0⟩, 0)]

theorem c8_amended_perm_invariance_witness :
    List.Perm c8wt1 c8wt2 ∧ (c8wt1.map trimKey).Nodup ∧
      (pairTimeDiffs (sortTrimTimes c8wt1) (sortCsvTimes c8csv) =
          pairTimeDiffs (sortTrimTimes c8wt2) (sortCsvTimes c8csv)
        ∧ ((c8wt1.map trimKey).Nodup →
            dateWarnings cfgDefault c8file (sortTrimTimes c8wt1) (sortCsvTimes c8csv) =
              dateWarnings cfgDefault c8file (sortTrimTimes c8wt2) (sortCsvTimes c8csv))) :=
  ⟨by decide, by decide,
   c8_amended_perm_invariance cfgDefault c8file c8wt1 c8wt2 c8csv c8csv
     (by decide) (by decide)⟩

/-! ## Claim C10 (amended): an empty CSV that is actually opened kills the run -/

theorem runLoop_append (cfg : Config) (l₁ l₂ : List (String × DateData))
    (st : LoopState) :
    runLoop cfg (l₁ ++ l₂) st =
      match runLoop cfg l₁ st with
      | .error e => .error e
      | .ok st' => runLoop cfg l₂ st' := by
  induction l₁ generalizing st with
  | nil => simp [runLoop]
  | cons hd rest ih =>
      obtain ⟨k, dd⟩ := hd
      simp only [List.cons_append, runLoop]
      cases processDate cfg st k dd <;> simp [ih]

/-- C10 (amended): whenever a common date is actually processed as far as
opening its CSV file (its `trim_image` listing exists and no earlier date
aborted the run) and that file is empty, the unconditional header skip raises
`StopIteration`, which nothing catches: the run terminates and no final
summary is produced, instead of the date being skipped. -/
theorem c10_amended_empty_csv_crash (cfg : Config)
    (pre post : List (String × DateData)) (st : LoopState) (k : String)
    (dd : DateData) (listing : List String)
    (hpre : runLoop cfg pre initState = .ok st)
    (hdir : dd.trimDir = some listing)
    (hempty : dd.csv.utf8 = ⟨[], .ok⟩) :
    runCheck cfg (pre ++ (k, dd) :: post) = .error .stopIteration := by
  unfold runCheck
  rw [runLoop_append, hpre]
  obtain ⟨td, f⟩ := dd
  simp only at hdir hempty
  subst hdir
  have hr : readCsvTimes f = .error .stopIteration := by
    unfold readCsvTimes
    rw [hempty]
  simp [runLoop, processDate, hr]

theorem c10_amended_empty_csv_crash_witness :
    runCheck cfgDefault [("20240101", ⟨some [], c10file⟩)] = .error .stopIteration :=
  c10_amended_empty_csv_crash cfgDefault [] [] initState "20240101"
    ⟨some [], c10file⟩ [] rfl rfl rfl
